import Mathlib

/-!
Verification of the bulk message dispatcher of `src/backend/main.py`
(Mowafy Sender web backend).

The code under study is the send endpoint and its background task:

* `MessageSendConfig` (main.py lines 52-59): a pydantic model with fields
  `page_id`, `access_token`, `message_text`, `recipient_ids`,
  `delay_between_messages` (default 5), `batch_size` (default 10),
  `batch_delay` (default 30).  The model declares plain `int` fields and
  carries no validators, so any integer values are accepted.
* `send_messages` (lines 190-203): the POST handler; it queues
  `send_messages_task` on FastAPI `BackgroundTasks` (which runs strictly
  after the response is sent) and returns
  `{"status": "processing", "message": ..., "total_recipients": len}`.
* `send_messages_task` (lines 205-236): iterates `enumerate(recipient_ids)`;
  per recipient it POSTs once, counts `successful += 1` when
  `response.status_code == 200`, otherwise `failed += 1`, and a raised
  exception from the POST is caught by the inner `except` and counted as
  `failed += 1`.  After each send it runs the delay logic:
  `if (index+1) % batch_size == 0 and (index+1) < len(recipient_ids):
  sleep(batch_delay) else: sleep(delay_between_messages)`.  The whole loop
  sits in an outer `try` whose `except` prints
  `f"Error in send_messages_task: {e}"`.  Nothing after the loop prints or
  stores `successful`/`failed`.

The embedding below mirrors this loop as a structurally recursive function
threading the counters, the list of attempted recipients, and the list of
sleep durations, together with the lines printed.  The network is an oracle
`net : Nat → PostResult` giving, for each 0-based position, what the single
`client.post` call for that recipient does (a response with a status code
and a flag recording whether the body carries an API error payload, which
the code never inspects, or a raised transport exception).  Python's `%`
on integers is floor modulo, i.e. `Int.fmod`; it is only evaluated when
`batch_size ≠ 0`, and `x % 0` raises `ZeroDivisionError`, which the model
renders as an aborted run (the outer handler's print line).
-/

/-- The pydantic request model `MessageSendConfig` (main.py 52-59).
Python `int` is unbounded, so the three pacing fields are `Int`;
the defaults are those of the source. -/
structure MessageSendConfig where
  page_id : String
  access_token : String
  message_text : String
  recipient_ids : List String
  delay_between_messages : Int := 5
  batch_size : Int := 10
  batch_delay : Int := 30
deriving Repr, DecidableEq

/-- What one `client.post` call does for one recipient: either an HTTP
response arrives (with a status code, and `errorBody` recording whether the
JSON body carries an API-reported error payload — a field of the world the
code never looks at), or the call raises a transport exception. -/
inductive PostResult where
  | response (status : Nat) (errorBody : Bool)
  | exn (msg : String)
deriving Repr, DecidableEq

/-- Outcome of one delivery as the loop classifies it. -/
inductive Outcome where
  | success
  | failure
deriving Repr, DecidableEq

/-- The classification performed by main.py lines 220-227: the `try` around
the POST turns a raised exception into `failed += 1`, and the response
branch tests only `response.status_code == 200` — the body (including any
API error payload in it) is never inspected. -/
def classifyResponse : PostResult → Outcome
  | .response status _ => if status = 200 then .success else .failure
  | .exn _ => .failure

/-- The delay chosen by main.py line 230 after the send at 0-based position
`j` (1-based position `j+1`): `batch_delay` when
`(j+1) % batch_size == 0 and (j+1) < len(recipient_ids)` (Python's `%` on
integers is floor modulo, `Int.fmod`), else `delay_between_messages`.
Only meaningful when `batch_size ≠ 0`. -/
def waitFor (cfg : MessageSendConfig) (j : Nat) : Int :=
  if Int.fmod ((j : Int) + 1) cfg.batch_size = 0
      ∧ j + 1 < cfg.recipient_ids.length then
    cfg.batch_delay
  else
    cfg.delay_between_messages

/-- The mutable state of the send loop: the two counters of
`send_messages_task`, plus the observable trace (which recipients a POST
was issued for, in order, and the durations passed to `asyncio.sleep`,
in order). -/
structure RunState where
  successful : Nat
  failed : Nat
  attempted : List String
  waits : List Int
deriving Repr, DecidableEq

/-- The `for index, recipient_id in enumerate(config.recipient_ids)` loop of
`send_messages_task` (main.py 213-233).  `rs` is the remaining suffix of
`cfg.recipient_ids` and `index` the 0-based position of its head.  Each
iteration issues one POST (recorded in `attempted`), bumps exactly one
counter according to `classifyResponse`, then runs the delay logic.  When
`batch_size = 0` the expression `(index+1) % batch_size` raises
`ZeroDivisionError`; the returned `Bool` is `true` exactly when the loop was
aborted by that exception.  Otherwise the sleep duration is
`batch_delay` when `(index+1) % batch_size == 0 and (index+1) < total`
(Python's floor modulo, `Int.fmod`), else `delay_between_messages` — note
the `else` branch also fires after the last send. -/
def sendLoop (cfg : MessageSendConfig) (net : Nat → PostResult) :
    List String → Nat → RunState → RunState × Bool
  | [], _, st => (st, false)
  | r :: rest, index, st =>
    let st1 : RunState :=
      match classifyResponse (net index) with
      | .success =>
          { st with successful := st.successful + 1, attempted := st.attempted ++ [r] }
      | .failure =>
          { st with failed := st.failed + 1, attempted := st.attempted ++ [r] }
    if cfg.batch_size = 0 then
      (st1, true)
    else
      sendLoop cfg net rest (index + 1)
        { st1 with waits := st1.waits ++ [waitFor cfg index] }

/-- The observable result of one run of `send_messages_task`: the final
values of the two local counters, the POSTs issued, the sleeps performed,
and the lines printed.  The source prints nothing on normal completion
(the counters are simply dropped when the function returns) and prints the
single line of the outer `except` when an exception escapes the loop. -/
structure RunResult where
  successful : Nat
  failed : Nat
  attempted : List String
  waits : List Int
  logs : List String
deriving Repr, DecidableEq

/-- The one line printed by the outer `except` handler when the delay
logic's modulo-by-zero aborts the run: Python renders
`f"Error in send_messages_task: {e}"` with
`str(ZeroDivisionError(...)) = "integer division or modulo by zero"`. -/
def zeroDivisionLog : String :=
  "Error in send_messages_task: integer division or modulo by zero"

/-- `send_messages_task` (main.py 205-236): run the loop from position 0
with zeroed counters; if the loop aborted (modulo by zero), the outer
`except` prints its diagnostic line — the counters themselves are never
printed, neither on abort nor on completion. -/
def send_messages_task (cfg : MessageSendConfig) (net : Nat → PostResult) :
    RunResult :=
  let res := sendLoop cfg net cfg.recipient_ids 0 ⟨0, 0, [], []⟩
  { successful := res.1.successful
    failed := res.1.failed
    attempted := res.1.attempted
    waits := res.1.waits
    logs := if res.2 then [zeroDivisionLog] else [] }

/-- The JSON acknowledgment returned by the POST handler. -/
structure Acknowledgment where
  status : String
  message : String
  total_recipients : Nat
deriving Repr, DecidableEq

/-- What `send_messages` (main.py 190-203) hands back: the acknowledgment
response, plus the configuration queued on `BackgroundTasks` (FastAPI runs
queued background tasks strictly after the response has been sent, so the
acknowledgment is produced before any of the run executes). -/
structure SubmitResult where
  ack : Acknowledgment
  queued : MessageSendConfig
deriving Repr, DecidableEq

/-- The POST handler `send_messages` (main.py 190-203): no field of the
config is validated; the task is queued and the acknowledgment
`{"status": "processing", "message": f"Started sending {n} messages",
"total_recipients": n}` is returned. -/
def send_messages (cfg : MessageSendConfig) : SubmitResult :=
  { ack :=
      { status := "processing"
        message := "Started sending " ++ toString cfg.recipient_ids.length
            ++ " messages"
        total_recipients := cfg.recipient_ids.length }
    queued := cfg }

/-- Number of positions among `idx, idx+1, …, idx+n-1` whose POST outcome
the loop classifies as success. -/
def succCount (net : Nat → PostResult) : Nat → Nat → Nat
  | _, 0 => 0
  | idx, n + 1 =>
    (match classifyResponse (net idx) with
     | .success => 1
     | .failure => 0) + succCount net (idx + 1) n

/-- Number of positions among `idx, idx+1, …, idx+n-1` whose POST outcome
the loop classifies as failure. -/
def failCount (net : Nat → PostResult) : Nat → Nat → Nat
  | _, 0 => 0
  | idx, n + 1 =>
    (match classifyResponse (net idx) with
     | .success => 0
     | .failure => 1) + failCount net (idx + 1) n

/-- The sleep durations performed after the sends at 0-based positions
`idx, idx+1, …, idx+n-1`, in order. -/
def waitsFrom (cfg : MessageSendConfig) : Nat → Nat → List Int
  | _, 0 => []
  | idx, n + 1 => waitFor cfg idx :: waitsFrom cfg (idx + 1) n

/-! ### Concrete fixtures used by counterexamples and witnesses -/

/-- The spec's pacing scenario: 12 recipients, `batch_size = 10`,
`delay_between_messages = 5`, `batch_delay = 30`. -/
def cfg12 : MessageSendConfig :=
  { page_id := "page", access_token := "tok", message_text := "hello"
    recipient_ids := ["r1", "r2", "r3", "r4", "r5", "r6", "r7", "r8", "r9",
      "r10", "r11", "r12"]
    delay_between_messages := 5, batch_size := 10, batch_delay := 30 }

/-- A network in which every POST returns HTTP 200 with no error body. -/
def netOK : Nat → PostResult := fun _ => .response 200 false

/-- A network in which every POST raises a transport exception. -/
def netFail : Nat → PostResult := fun _ => .exn "connection error"

/-- The spec's counting scenario: 10 recipients with the default pacing. -/
def cfg10 : MessageSendConfig :=
  { page_id := "page", access_token := "tok", message_text := "hello"
    recipient_ids := ["u1", "u2", "u3", "u4", "u5", "u6", "u7", "u8", "u9",
      "u10"] }

/-- Failures at 1-based positions 3 and 7 (a transport exception and a
non-success status), success elsewhere. -/
def net37 : Nat → PostResult := fun i =>
  if i = 2 then .exn "timeout"
  else if i = 6 then .response 500 false
  else .response 200 false

/-- A job with `batch_size = 0` and two recipients. -/
def cfg0 : MessageSendConfig :=
  { page_id := "page", access_token := "tok", message_text := "hello"
    recipient_ids := ["a", "b"], batch_size := 0 }

/-- A job with a single recipient and the default pacing. -/
def cfgOne : MessageSendConfig :=
  { page_id := "page", access_token := "tok", message_text := "hello"
    recipient_ids := ["solo"] }

/-- A network whose response arrives with HTTP 200 but whose body carries an
API-reported error payload. -/
def netErrBody : Nat → PostResult := fun _ => .response 200 true

/-- A job with an empty recipient list. -/
def cfgEmpty : MessageSendConfig :=
  { page_id := "page", access_token := "tok", message_text := "hello"
    recipient_ids := [] }

/-- An invalid job: `batch_size = 0`, a negative delay, one recipient. -/
def cfgInvalid : MessageSendConfig :=
  { page_id := "page", access_token := "tok", message_text := "hello"
    recipient_ids := ["x"], delay_between_messages := -3, batch_size := 0 }

/-! ### Helper lemmas about the send loop -/

/-- Master description of the loop when `batch_size ≠ 0` (so the delay
logic never raises): the loop never aborts, attempts exactly the remaining
recipients in order, adds `succCount`/`failCount` to the two counters, and
performs one sleep per send as prescribed by `waitFor`. -/
theorem sendLoop_run (cfg : MessageSendConfig) (net : Nat → PostResult)
    (hB : cfg.batch_size ≠ 0) :
    ∀ (rs : List String) (idx : Nat) (st : RunState),
      sendLoop cfg net rs idx st =
        ({ successful := st.successful + succCount net idx rs.length
           failed := st.failed + failCount net idx rs.length
           attempted := st.attempted ++ rs
           waits := st.waits ++ waitsFrom cfg idx rs.length }, false) := by
  intro rs
  induction rs with
  | nil =>
    intro idx st
    simp [sendLoop, succCount, failCount, waitsFrom]
  | cons r rest ih =>
    intro idx st
    rw [sendLoop]
    cases h : classifyResponse (net idx) with
    | success =>
      simp only [h, if_neg hB, ih, List.length_cons, succCount, failCount,
        waitsFrom, h]
      refine congrArg (fun s => (s, false)) ?_
      simp only [RunState.mk.injEq]
      refine ⟨by omega, by omega, by simp, by simp⟩
    | failure =>
      simp only [h, if_neg hB, ih, List.length_cons, succCount, failCount,
        waitsFrom, h]
      refine congrArg (fun s => (s, false)) ?_
      simp only [RunState.mk.injEq]
      refine ⟨by omega, by omega, by simp, by simp⟩

/-- Every position is counted exactly once: the two counters always sum to
the number of positions processed. -/
theorem succCount_add_failCount (net : Nat → PostResult) :
    ∀ (n idx : Nat), succCount net idx n + failCount net idx n = n := by
  intro n
  induction n with
  | zero => intro idx; simp [succCount, failCount]
  | succ n ih =>
    intro idx
    have h := ih (idx + 1)
    simp only [succCount, failCount]
    cases classifyResponse (net idx) <;> simp <;> omega

theorem waitsFrom_length (cfg : MessageSendConfig) :
    ∀ (n idx : Nat), (waitsFrom cfg idx n).length = n := by
  intro n
  induction n with
  | zero => intro idx; simp [waitsFrom]
  | succ n ih => intro idx; simp [waitsFrom, ih]

theorem waitsFrom_getElem (cfg : MessageSendConfig) :
    ∀ (n idx k : Nat), k < n → (waitsFrom cfg idx n)[k]? = some (waitFor cfg (idx + k)) := by
  intro n
  induction n with
  | zero => intro idx k hk; omega
  | succ n ih =>
    intro idx k hk
    cases k with
    | zero => simp [waitsFrom]
    | succ k =>
      have hk' : k < n := by omega
      have h2 := ih (idx + 1) k hk'
      have h3 : idx + 1 + k = idx + (k + 1) := by omega
      rw [waitsFrom, List.getElem?_cons_succ, h2, h3]


/-- The whole background task for a valid `batch_size`: no abort, every
recipient attempted in order, counters given by the two counts, one sleep
per send, and nothing printed. -/
theorem send_messages_task_run (cfg : MessageSendConfig)
    (net : Nat → PostResult) (hB : cfg.batch_size ≠ 0) :
    send_messages_task cfg net =
      { successful := succCount net 0 cfg.recipient_ids.length
        failed := failCount net 0 cfg.recipient_ids.length
        attempted := cfg.recipient_ids
        waits := waitsFrom cfg 0 cfg.recipient_ids.length
        logs := [] } := by
  unfold send_messages_task
  rw [sendLoop_run cfg net hB]
  simp

/-- The whole background task when `batch_size = 0` and the recipient list
is non-empty: the first recipient is POSTed and counted, then the delay
logic raises `ZeroDivisionError` before any sleep; the outer handler prints
its diagnostic line and the run ends. -/
theorem send_messages_task_batchZero (cfg : MessageSendConfig)
    (net : Nat → PostResult) (r : String) (rest : List String)
    (h0 : cfg.batch_size = 0) (hr : cfg.recipient_ids = r :: rest) :
    send_messages_task cfg net =
      { successful := succCount net 0 1
        failed := failCount net 0 1
        attempted := [r]
        waits := []
        logs := [zeroDivisionLog] } := by
  unfold send_messages_task
  rw [hr, sendLoop]
  cases h : classifyResponse (net 0) <;>
    simp [h0, h, succCount, failCount]

/-! ### Claim theorems -/

/-- Claim C1 (amended).  For every job with a valid (non-zero) `batch_size`
and every 1-based position `i` of a just-sent message, the wait before the
next send equals `batch_delay` when `i < total` and `i % batch_size == 0`,
and equals `delay_between_messages` otherwise — *including* when
`i == total`: the loop's `else` branch also sleeps after the last send, so
there is a trailing wait of `delay_between_messages` rather than no wait. -/
theorem pacing_wait_after_each_send (cfg : MessageSendConfig)
    (net : Nat → PostResult) (hB : cfg.batch_size ≠ 0) :
    (send_messages_task cfg net).waits.length = cfg.recipient_ids.length ∧
    ∀ i : Nat, 1 ≤ i → i ≤ cfg.recipient_ids.length →
      (send_messages_task cfg net).waits[i - 1]? =
        some (if Int.fmod (i : Int) cfg.batch_size = 0
                ∧ i < cfg.recipient_ids.length then
            cfg.batch_delay
          else
            cfg.delay_between_messages) := by
  rw [send_messages_task_run cfg net hB]
  constructor
  · exact waitsFrom_length cfg _ 0
  · intro i h1 h2
    have hk : i - 1 < cfg.recipient_ids.length := by omega
    rw [waitsFrom_getElem cfg _ 0 (i - 1) hk]
    have hj : 0 + (i - 1) = i - 1 := by omega
    rw [hj]
    unfold waitFor
    have h4 : i - 1 + 1 = i := by omega
    rw [h4]
    have h5 : ((i - 1 : Nat) : Int) + 1 = (i : Int) := by omega
    rw [h5]

/-- Claim C1, counterexample to the claim as stated: for the spec's own
scenario (12 recipients, `batch_size = 10`, delays 5 and 30), the code's
wait sequence after sends 1..12 ends in `5`, not `0` — there is a trailing
`delay_between_messages` sleep after the last send. -/
theorem pacing_trailing_wait_cex :
    (send_messages_task cfg12 netOK).waits
        = [5, 5, 5, 5, 5, 5, 5, 5, 5, 30, 5, 5] ∧
    (send_messages_task cfg12 netOK).waits
        ≠ [5, 5, 5, 5, 5, 5, 5, 5, 5, 30, 5, 0] := by
  constructor <;> decide

/-- Claim C1, witness: in the 12-recipient scenario there are 12 waits, the
wait after send 10 is `30` and the wait after send 12 is `5`. -/
theorem pacing_wait_after_each_send_witness :
    (send_messages_task cfg12 netOK).waits.length = 12 ∧
    (send_messages_task cfg12 netOK).waits[9]? = some 30 ∧
    (send_messages_task cfg12 netOK).waits[11]? = some 5 := by
  have h := pacing_wait_after_each_send cfg12 netOK (by decide)
  exact ⟨h.1.trans (by decide),
    (h.2 10 (by decide) (by decide)).trans (by decide),
    (h.2 12 (by decide) (by decide)).trans (by decide)⟩

/-- Claim C2 (confirmed).  For every job whose run completes normally
(valid non-zero `batch_size`), the final counters satisfy
`successful + failed = len(recipients)`, with `successful` exactly the
number of positions whose outcome the loop classifies as success and
`failed` exactly the number classified as failure. -/
theorem report_counts_complete (cfg : MessageSendConfig)
    (net : Nat → PostResult) (hB : cfg.batch_size ≠ 0) :
    (send_messages_task cfg net).successful
        = succCount net 0 cfg.recipient_ids.length ∧
    (send_messages_task cfg net).failed
        = failCount net 0 cfg.recipient_ids.length ∧
    (send_messages_task cfg net).successful + (send_messages_task cfg net).failed
        = cfg.recipient_ids.length := by
  rw [send_messages_task_run cfg net hB]
  exact ⟨rfl, rfl, succCount_add_failCount net _ 0⟩

/-- Claim C2, witness: the spec's scenario — 10 recipients with failures at
positions 3 and 7 — yields `successful + failed = 10` (via the theorem)
and concretely `successful = 8`, `failed = 2`. -/
theorem report_counts_complete_witness :
    (send_messages_task cfg10 net37).successful
        + (send_messages_task cfg10 net37).failed = 10 ∧
    (send_messages_task cfg10 net37).successful = 8 ∧
    (send_messages_task cfg10 net37).failed = 2 :=
  ⟨(report_counts_complete cfg10 net37 (by decide)).2.2, by decide, by decide⟩

/-- Claim C3, counterexample to the claim as stated: a job with
`batch_size = 0` and a negative delay is *not* rejected at submission — the
handler performs no validation, returns the normal `processing`
acknowledgment, and the background run then performs one transmitter
invocation, not zero. -/
theorem submission_accepts_invalid_cex :
    (send_messages cfgInvalid).ack.status = "processing" ∧
    (send_messages_task cfgInvalid netOK).attempted.length = 1 := by
  constructor <;> decide

/-- Claim C3 (amended).  Submission performs no validation at all: every
job — including `batch_size = 0`, negative `batch_size`, or negative
delays — is accepted with a `processing` acknowledgment and queued
unchanged; and when `batch_size = 0` with a non-empty recipient list, the
run that follows performs exactly one transmitter invocation (for the first
recipient) before aborting. -/
theorem submission_unvalidated (cfg : MessageSendConfig)
    (net : Nat → PostResult) :
    (send_messages cfg).ack.status = "processing" ∧
    (send_messages cfg).queued = cfg ∧
    (cfg.batch_size = 0 → ∀ r rest, cfg.recipient_ids = r :: rest →
      (send_messages_task cfg net).attempted = [r]) := by
  refine ⟨rfl, rfl, ?_⟩
  intro h0 r rest hr
  rw [send_messages_task_batchZero cfg net r rest h0 hr]

/-- Claim C3, witness: the invalid job `cfgInvalid` (`batch_size = 0`,
delay `-3`, one recipient) is acknowledged as processing, queued unchanged,
and its run attempts exactly the one recipient. -/
theorem submission_unvalidated_witness :
    (send_messages cfgInvalid).ack.status = "processing" ∧
    (send_messages cfgInvalid).queued = cfgInvalid ∧
    (send_messages_task cfgInvalid netOK).attempted = ["x"] :=
  ⟨(submission_unvalidated cfgInvalid netOK).1,
   (submission_unvalidated cfgInvalid netOK).2.1,
   (submission_unvalidated cfgInvalid netOK).2.2 rfl "x" [] rfl⟩

/-- Claim C4 (confirmed).  For every job with a valid (non-zero)
`batch_size` and *every* behaviour of the network — failures and raised
transport exceptions at arbitrary positions included — the run attempts
every recipient exactly once, in list order, and nothing ever escapes to
the run-level handler (no error line is printed): a failure at position `i`
never prevents the attempt at position `i + 1`. -/
theorem all_recipients_attempted_in_order (cfg : MessageSendConfig)
    (net : Nat → PostResult) (hB : cfg.batch_size ≠ 0) :
    (send_messages_task cfg net).attempted = cfg.recipient_ids ∧
    (send_messages_task cfg net).logs = [] := by
  rw [send_messages_task_run cfg net hB]
  exact ⟨rfl, rfl⟩

/-- Claim C4, witness: with a raised timeout at position 3 and an HTTP 500
at position 7, all ten recipients are still attempted, in order, and no
error escapes the loop. -/
theorem all_recipients_attempted_in_order_witness :
    (send_messages_task cfg10 net37).attempted = cfg10.recipient_ids ∧
    (send_messages_task cfg10 net37).logs = [] :=
  all_recipients_attempted_in_order cfg10 net37 (by decide)

/-- Claim C5, counterexample to the claim as stated: a response that
arrives with HTTP 200 but carries an API-reported error payload in its body
is classified as success (the code tests only `status_code == 200` and
never reads the body), so a single-recipient run with such a response is
tallied `successful = 1, failed = 0` — the claim requires Failure here. -/
theorem classification_error_body_cex :
    classifyResponse (PostResult.response 200 true) = Outcome.success ∧
    (send_messages_task cfgOne netErrBody).successful = 1 ∧
    (send_messages_task cfgOne netErrBody).failed = 0 := by
  refine ⟨rfl, ?_, ?_⟩ <;> decide

/-- Claim C5 (amended).  A single-recipient delivery is classified Success
exactly when an HTTP response arrives with status 200, regardless of its
body; every non-200 status and every raised transport exception is
classified Failure — but an API error payload arriving with status 200 is
*not* detected, since the body is never inspected. -/
theorem classification_status_only (r : PostResult) :
    classifyResponse r = Outcome.success ↔ ∃ b, r = PostResult.response 200 b := by
  cases r with
  | response s b =>
    unfold classifyResponse
    by_cases hs : s = 200
    · subst hs
      simp
    · simp [hs]
  | exn m =>
    simp [classifyResponse]

/-- Claim C6 (confirmed).  A job with an empty recipient list completes
with zero successes, zero failures, zero transmitter invocations, zero
waits, and nothing printed — for any `batch_size`, since the loop body
(and hence the modulo) is never reached. -/
theorem empty_job_completes_trivially (cfg : MessageSendConfig)
    (net : Nat → PostResult) (h : cfg.recipient_ids = []) :
    send_messages_task cfg net =
      { successful := 0, failed := 0, attempted := [], waits := []
        logs := [] } := by
  unfold send_messages_task
  rw [h]
  simp [sendLoop]

/-- Claim C6, witness: the concrete empty job. -/
theorem empty_job_completes_trivially_witness :
    send_messages_task cfgEmpty netOK =
      { successful := 0, failed := 0, attempted := [], waits := []
        logs := [] } :=
  empty_job_completes_trivially cfgEmpty netOK rfl

/-- Claim C7 (confirmed).  The submit handler returns the acknowledgment
`{status: "processing", total_recipients = len(recipient_ids)}` while the
job is merely queued (FastAPI background tasks run strictly after the
response is sent, which the embedding renders by `send_messages` returning
the un-run queued configuration alongside the acknowledgment). -/
theorem submit_acknowledgment (cfg : MessageSendConfig) :
    (send_messages cfg).ack.status = "processing" ∧
    (send_messages cfg).ack.total_recipients = cfg.recipient_ids.length ∧
    (send_messages cfg).queued = cfg :=
  ⟨rfl, rfl, rfl⟩

/-- Claim C8 (code bug).  A run that completes normally prints nothing at
all: the final `successful`/`failed` tallies are dropped when the function
returns, so no diagnostic log line containing the report is ever
emitted. -/
theorem completed_run_emits_no_logs (cfg : MessageSendConfig)
    (net : Nat → PostResult) (hB : cfg.batch_size ≠ 0) :
    (send_messages_task cfg net).logs = [] := by
  rw [send_messages_task_run cfg net hB]

/-- Claim C8, witness: the 10-recipient run with two failures completes
with a non-trivial internal tally (8 successes) yet emits zero log
lines. -/
theorem completed_run_emits_no_logs_witness :
    (send_messages_task cfg10 net37).logs = [] ∧
    (send_messages_task cfg10 net37).successful = 8 :=
  ⟨completed_run_emits_no_logs cfg10 net37 (by decide), by decide⟩

/-- Claim C9, counterexample to the claim as stated: two aborted runs
(`batch_size = 0`, two recipients) whose accumulated counts differ —
`successful = 1` versus `successful = 0` — produce *identical* output,
namely the single fixed `ZeroDivisionError` diagnostic: the accumulated
counts appear in no output, so no partial report is produced. -/
theorem fatal_abort_no_partial_report_cex :
    (send_messages_task cfg0 netOK).successful = 1 ∧
    (send_messages_task cfg0 netOK).failed = 0 ∧
    (send_messages_task cfg0 netFail).successful = 0 ∧
    (send_messages_task cfg0 netFail).failed = 1 ∧
    (send_messages_task cfg0 netOK).logs = (send_messages_task cfg0 netFail).logs ∧
    (send_messages_task cfg0 netOK).logs = [zeroDivisionLog] := by
  refine ⟨?_, ?_, ?_, ?_, ?_, ?_⟩ <;> decide

/-- Claim C9 (amended).  A fatal failure inside the run (in this code, the
modulo-by-zero raised by the delay logic when `batch_size = 0`) aborts the
run without crashing the process: the outer handler absorbs the exception
and prints one fixed error diagnostic.  No partial report is produced —
the printed output is the same whatever counts had accumulated, and the
counts appear in no output. -/
theorem fatal_abort_fixed_diagnostic (cfg : MessageSendConfig)
    (net net2 : Nat → PostResult) (h0 : cfg.batch_size = 0)
    (r : String) (rest : List String) (hr : cfg.recipient_ids = r :: rest) :
    (send_messages_task cfg net).logs = [zeroDivisionLog] ∧
    (send_messages_task cfg net).logs = (send_messages_task cfg net2).logs := by
  rw [send_messages_task_batchZero cfg net r rest h0 hr,
    send_messages_task_batchZero cfg net2 r rest h0 hr]
  exact ⟨rfl, rfl⟩

/-- Claim C9, witness: the concrete aborted run prints exactly the fixed
diagnostic line, identically under an all-success and an all-failure
network. -/
theorem fatal_abort_fixed_diagnostic_witness :
    (send_messages_task cfg0 netOK).logs = [zeroDivisionLog] ∧
    (send_messages_task cfg0 netOK).logs = (send_messages_task cfg0 netFail).logs :=
  fatal_abort_fixed_diagnostic cfg0 netOK netFail rfl "a" ["b"] rfl

/-- Claim C10 (confirmed).  For every job with `batch_size = 0` and a
non-empty recipient list, exactly one transmitter invocation occurs (the
head recipient); no sleep is performed, because the pacing computation
after that first send divides by zero; the exception escapes the
per-recipient handler, is absorbed by the run-level handler (which prints
its fixed diagnostic), the remaining recipients are never attempted, and
the single accumulated count is discarded (the only output is the fixed
diagnostic line). -/
theorem batch_size_zero_one_send (cfg : MessageSendConfig)
    (net : Nat → PostResult) (r : String) (rest : List String)
    (h0 : cfg.batch_size = 0) (hr : cfg.recipient_ids = r :: rest) :
    (send_messages_task cfg net).attempted = [r] ∧
    (send_messages_task cfg net).waits = [] ∧
    (send_messages_task cfg net).logs = [zeroDivisionLog] ∧
    (send_messages_task cfg net).successful + (send_messages_task cfg net).failed = 1 := by
  rw [send_messages_task_batchZero cfg net r rest h0 hr]
  exact ⟨rfl, rfl, rfl, succCount_add_failCount net 1 0⟩

/-- Claim C10, witness: the concrete `batch_size = 0` job with recipients
`["a", "b"]` attempts only `"a"`, sleeps never, prints the fixed
diagnostic, and tallies exactly one outcome. -/
theorem batch_size_zero_one_send_witness :
    (send_messages_task cfg0 netOK).attempted = ["a"] ∧
    (send_messages_task cfg0 netOK).waits = [] ∧
    (send_messages_task cfg0 netOK).logs = [zeroDivisionLog] ∧
    (send_messages_task cfg0 netOK).successful + (send_messages_task cfg0 netOK).failed = 1 :=
  batch_size_zero_one_send cfg0 netOK "a" ["b"] rfl rfl
